import Mathlib

/-!
Verification development for the storybot repository (Telegram children's
book bot).  Python functions from `telegram-bot/` are shallowly embedded as
executable Lean definitions: strings are Lean `String`s (code points, as in
Python 3), byte strings are `List Nat` with entries `< 256`, Python `dict`s
with optional keys become structures with `Option` fields, and external
collaborators (Gemini / DALL-E / Supabase / translator) are oracle
parameters.  Each claim about the source is settled by a theorem below.
-/

/-! ## Python string primitives -/

/-- Code-point case mapping used by Python `str.lower()` restricted to the
alphabets occurring in this repository: ASCII `A`-`Z` and Cyrillic `А`-`Я`
plus `Ё`. -/
def lowerCode (n : Nat) : Nat :=
  if 65 ≤ n ∧ n ≤ 90 then n + 32
  else if 1040 ≤ n ∧ n ≤ 1071 then n + 32
  else if n = 1025 then 1105
  else n

/-- Lower-case a character (model of Python `str.lower` per code point). -/
def pyLowerChar (c : Char) : Char := Char.ofNat (lowerCode c.toNat)

/-- Model of Python `str.lower()`. -/
def pyLowerStr (s : String) : String := ⟨s.data.map pyLowerChar⟩

/-- ASCII whitespace recognised by Python `str.strip()` / `str.split()`
(the common subset; exotic Unicode whitespace does not occur here). -/
def isPySpace (c : Char) : Bool :=
  c = ' ' || c = '\t' || c = '\n' || c = '\r' || c = '\x0b' || c = '\x0c'

/-- Strip whitespace from both ends of a character list. -/
def stripChars (l : List Char) : List Char :=
  ((l.dropWhile isPySpace).reverse.dropWhile isPySpace).reverse

/-- Model of Python `str.strip()`. -/
def pyStrip (s : String) : String := ⟨stripChars s.data⟩

/-- Helper for `pyWords`: accumulate the current (reversed) word. -/
def splitWsAux : List Char → List Char → List (List Char)
  | [], acc => if acc.isEmpty then [] else [acc.reverse]
  | c :: cs, acc =>
    if isPySpace c then
      if acc.isEmpty then splitWsAux cs [] else acc.reverse :: splitWsAux cs []
    else splitWsAux cs (c :: acc)

/-- Model of Python `str.split()` (split on whitespace runs, no empties). -/
def pyWords (l : List Char) : List (List Char) := splitWsAux l []

/-- Boolean list-prefix test (used for `startswith` and substring search). -/
def listIsPrefixB [BEq α] : List α → List α → Bool
  | [], _ => true
  | _ :: _, [] => false
  | p :: ps, c :: cs => p == c && listIsPrefixB ps cs

/-- Does `pat` occur as a contiguous sublist of the second argument?
Model of Python `pat in s`. -/
def listContainsPat [BEq α] (pat : List α) : List α → Bool
  | [] => listIsPrefixB pat []
  | c :: cs => listIsPrefixB pat (c :: cs) || listContainsPat pat cs

/-- Model of Python substring test `w in s`. -/
def strContains (s w : String) : Bool := listContainsPat w.data s.data

/-- Model of Python `s.startswith(pre)`. -/
def strStartsWith (s pre : String) : Bool := listIsPrefixB pre.data s.data

/-- Model of Python slicing `s[n:]` (code-point based). -/
def pyStrDrop (n : Nat) (s : String) : String := ⟨s.data.drop n⟩

/-- Truthiness of an optional string value (`dict.get` result). -/
def optStrTruthy : Option String → Bool
  | some s => !s.isEmpty
  | none => false

/-- Truthiness of an optional byte string value. -/
def optBytesTruthy : Option (List Nat) → Bool
  | some b => !b.isEmpty
  | none => false

/-! ## `utils/character_analyzer.py`: `analyze_character_description` -/

/-- `appearance_keywords` from `analyze_character_description`. -/
def appearance_keywords : List String :=
  ["внешность", "выглядит", "цвет", "размер", "рост", "глаза", "волосы",
   "шерсть", "большой", "маленький", "рыжий", "белый", "черный"]

/-- `personality_keywords` from `analyze_character_description`. -/
def personality_keywords : List String :=
  ["характер", "любит", "добрый", "смелый", "веселый", "умный",
   "дружелюбный", "храбрый", "озорной"]

/-- Result dictionary of `analyze_character_description`. -/
structure AnalysisResult where
  missing_fields : List String
  clarification_question : String
deriving DecidableEq

/-- `CharacterAnalyzer.analyze_character_description` (the body is pure and
cannot raise, so the `try`/`except` wrapper is not represented). -/
def analyze_character_description (name description : String) : AnalysisResult :=
  if description.length < 15 then
    { missing_fields := ["details"],
      clarification_question :=
        "Расскажи побольше о том, как выглядит " ++ name
          ++ " и какой у него характер?" }
  else
    let lowered := pyLowerStr description
    let has_appearance := appearance_keywords.any (fun w => strContains lowered w)
    let has_personality := personality_keywords.any (fun w => strContains lowered w)
    let missing :=
      (if has_appearance then [] else ["appearance"])
        ++ (if has_personality then [] else ["personality"])
    if missing.isEmpty then
      { missing_fields := [], clarification_question := "" }
    else
      let questions :=
        (if has_appearance then [] else ["как выглядит " ++ name])
          ++ (if has_personality then [] else ["какой у него характер"])
      { missing_fields := missing,
        clarification_question :=
          "Расскажи " ++ String.intercalate (" и ") questions ++ "?" }

/-! ## `api/bot.py`: `handle_book_title` (session state `CREATE_BOOK_TITLE`) -/

/-- Conversation state constants (`range(9)` order in `api/bot.py`). -/
def MAIN_MENU : Nat := 0

/-- State awaiting a book title. -/
def CREATE_BOOK_TITLE : Nat := 1

/-- State awaiting a book description. -/
def CREATE_BOOK_DESCRIPTION : Nat := 2

/-- Observable outcome of one `handle_book_title` turn: the returned
conversation state, the reply sent, and the stored `book_title` (if any). -/
structure TitleStepResult where
  next_state : Nat
  reply : String
  stored_title : Option String
deriving DecidableEq

/-- `StoryBot.handle_book_title`: strips the incoming message text, rejects
titles shorter than 3 or longer than 100 characters with a same-state
re-prompt, otherwise stores the title and advances to the description
step. -/
def handle_book_title (text : String) : TitleStepResult :=
  let title := pyStrip text
  if title.length < 3 then
    { next_state := CREATE_BOOK_TITLE,
      reply := "🤔 Название слишком короткое. Придумай название длиннее 3 символов!",
      stored_title := none }
  else if title.length > 100 then
    { next_state := CREATE_BOOK_TITLE,
      reply := "😅 Название слишком длинное! Давай покороче (до 100 символов).",
      stored_title := none }
  else
    { next_state := CREATE_BOOK_DESCRIPTION,
      reply := "📖 Отлично! Название: **" ++ title
        ++ "**\n\nТеперь расскажи кратко, о чем будет эта книга?",
      stored_title := some title }

/-! ## `utils/database.py`: character reference storage -/

/-- Lower-case hex digit of `n < 16` (Python `bytes.hex()` is lower case). -/
def natToHexDigit (n : Nat) : Char :=
  if n < 10 then Char.ofNat (48 + n) else Char.ofNat (87 + n)

/-- Two hex digits of one byte. -/
def byteToHexChars (b : Nat) : List Char :=
  [natToHexDigit (b / 16), natToHexDigit (b % 16)]

/-- Model of Python `bytes.hex()`. -/
def pyBytesHex (bs : List Nat) : String := ⟨(bs.map byteToHexChars).flatten⟩

/-- Hex digit value of a character, if it is one (upper or lower case). -/
def hexDigitVal (c : Char) : Option Nat :=
  if 48 ≤ c.toNat ∧ c.toNat ≤ 57 then some (c.toNat - 48)
  else if 97 ≤ c.toNat ∧ c.toNat ≤ 102 then some (c.toNat - 87)
  else if 65 ≤ c.toNat ∧ c.toNat ≤ 70 then some (c.toNat - 55)
  else none

/-- Decode a run of hex digit pairs; `none` models the `ValueError` raised
by `bytes.fromhex` on odd length or non-hex characters. -/
def hexPairsToBytes : List Char → Option (List Nat)
  | [] => some []
  | [_] => none
  | c1 :: c2 :: rest =>
    match hexDigitVal c1, hexDigitVal c2, hexPairsToBytes rest with
    | some h, some l, some bs => some ((16 * h + l) :: bs)
    | _, _, _ => none

/-- Model of Python `bytes.fromhex` (whitespace between pairs is skipped). -/
def pyBytesFromHex (s : String) : Option (List Nat) :=
  hexPairsToBytes (s.data.filter (fun c => !isPySpace c))

/-- A value read back from the Supabase `reference_image` column: either the
hex string form or raw bytes (the two `isinstance` branches of the source). -/
inductive StoredValue
  | str (s : String)
  | bytes (b : List Nat)
deriving DecidableEq

/-- Python truthiness of a `reference_image` column value (a string or
byte string is truthy exactly when non-empty). -/
def storedTruthy : Option StoredValue → Bool
  | some (.str s) => !s.data.isEmpty
  | some (.bytes b) => !b.isEmpty
  | none => false

/-- The decoding cascade shared by `get_character_reference` and
`get_characters_with_references`: `\x`-prefixed hex, raw bytes, or the
base64 fallback (`base64.b64decode`, passed in as an oracle). -/
def decodeStored (b64 : String → Option (List Nat)) : StoredValue → Option (List Nat)
  | .str s =>
    if strStartsWith s ("\\x") then pyBytesFromHex (pyStrDrop 2 s) else b64 s
  | .bytes b => some b

/-- The `update_data` dictionary built by
`DatabaseManager.save_character_reference`. -/
structure ReferenceUpdate where
  reference_image : String
  reference_prompt : String
  has_reference : Bool
deriving DecidableEq

/-- `DatabaseManager.save_character_reference`: bytes are stored as the
string `"\x" + image_data.hex()` for the PostgreSQL BYTEA column. -/
def save_character_reference (image_data : List Nat) (prompt : String) : ReferenceUpdate :=
  { reference_image := ("\\x") ++ pyBytesHex image_data,
    reference_prompt := prompt,
    has_reference := true }

/-- `DatabaseManager.get_character_reference`, applied to the stored column
value (decoding failures raise and are caught, yielding `None`). -/
def get_character_reference (b64 : String → Option (List Nat))
    (stored : Option StoredValue) : Option (List Nat) :=
  match stored with
  | none => none
  | some v => if storedTruthy (some v) then decodeStored b64 v else none

/-! ## `utils/image_generator.py`: provider chain and reference pipeline -/

/-- A character dictionary as the image generator sees it.  Absent dict
keys are `none`; `book_id` is present on rows from `get_book_characters`
but absent on rows built by `get_characters_with_references`. -/
structure PyCharacter where
  id : String := ""
  name : String := ""
  book_id : Option String := none
  full_description : Option String := none
  appearance : Option String := none
  personality : Option String := none
  has_reference : Bool := false
  reference_image : Option (List Nat) := none
  reference_prompt : Option String := none

/-- A row of the `characters` table as returned by the
`get_characters_with_references` select. -/
structure DbCharRow where
  id : String
  name : String
  full_description : Option String
  has_reference : Bool
  reference_image : Option StoredValue
  reference_prompt : Option String

/-- One iteration of the loop in
`DatabaseManager.get_characters_with_references`: build the character dict,
decoding the reference bytes when present.  A decoding error is an
uncaught exception there (`Except.error`), which makes the whole call
return `[]`. -/
def rowToChar (b64 : String → Option (List Nat)) (row : DbCharRow) :
    Except Unit PyCharacter :=
  let base : PyCharacter :=
    { id := row.id, name := row.name, full_description := row.full_description,
      has_reference := row.has_reference }
  if row.has_reference && storedTruthy row.reference_image then
    match row.reference_image with
    | some v =>
      match decodeStored b64 v with
      | some bytes =>
        .ok { base with reference_image := some bytes,
                        reference_prompt := row.reference_prompt }
      | none => .error ()
    | none => .ok base
  else .ok base

/-- The row loop of `get_characters_with_references`: stop at the first
decoding exception (it propagates), otherwise collect the built dicts in
order. -/
def rowLoop (b64 : String → Option (List Nat)) :
    List DbCharRow → Except Unit (List PyCharacter)
  | [] => .ok []
  | r :: rs =>
    match rowToChar b64 r with
    | .error e => .error e
    | .ok c =>
      match rowLoop b64 rs with
      | .error e => .error e
      | .ok cs => .ok (c :: cs)

/-- `DatabaseManager.get_characters_with_references` applied to the selected
rows: any decoding exception is caught by the outer handler, which returns
the empty list. -/
def get_characters_with_references (b64 : String → Option (List Nat))
    (rows : List DbCharRow) : List PyCharacter :=
  match rowLoop b64 rows with
  | .ok chars => chars
  | .error _ => []

/-- `inline_data` of a Gemini response part. -/
structure InlineData where
  mime_type : String
  data : List Nat

/-- One part of a Gemini candidate (text-only parts have no inline data). -/
structure GeminiPart where
  inline_data : Option InlineData

/-- One candidate of a Gemini response. -/
structure GeminiCandidate where
  parts : List GeminiPart

/-- A Gemini `generate_content` response. -/
structure GeminiResponse where
  candidates : List GeminiCandidate

/-- `b'\x89PNG'`, the binary signature checked by the source. -/
def pngSignature : List Nat := [137, 80, 78, 71]

/-- `image_data.startswith(b'\x89PNG')`. -/
def startsWithPng (data : List Nat) : Bool := listIsPrefixB pngSignature data

/-- The part-scanning loop shared by the generation routines: the first part
whose (truthy) `inline_data` payload carries the PNG signature wins; parts
with missing, empty, or non-PNG payloads are skipped. -/
def findPngPart : List GeminiPart → Option InlineData
  | [] => none
  | p :: ps =>
    match p.inline_data with
    | some d =>
      if d.data.isEmpty then findPngPart ps
      else if startsWithPng d.data then some d
      else findPngPart ps
    | none => findPngPart ps

/-- PNG payload of a Gemini call outcome: an exception, an empty candidate
list, or a candidate without a valid PNG part all yield `none` (only the
first candidate is examined, as in the source). -/
def respPngData : Except Unit GeminiResponse → Option InlineData
  | .error _ => none
  | .ok r =>
    match r.candidates with
    | [] => none
    | cand :: _ => findPngPart cand.parts

/-- Prompt truncation in `_generate_with_dalle_fallback`
(`prompt[:997] + "..."` beyond 1000 characters). -/
def dalle_truncate (prompt : String) : String :=
  if prompt.length > 1000 then ⟨prompt.data.take 997⟩ ++ ("...") else prompt

/-- `_generate_with_dalle_fallback` outcome handling: the image URL on
success, `None` when the OpenAI call raised. -/
def dalle_fallback : Except Unit String → Option String
  | .ok url => some url
  | .error _ => none

/-- External collaborators of `ImageGenerator`, passed as oracles:
the translator, the characters table, `base64.b64decode`, Gemini
`generate_content` (reference images plus prompt), `_save_temp_image`
(data and mime type), and the DALL-E API call. -/
structure ImageEnv where
  translate : String → String
  dbRows : String → List DbCharRow
  b64 : String → Option (List Nat)
  genContent : List (List Nat) → String → Except Unit GeminiResponse
  saveTemp : List Nat → String → Option String
  dalleApi : String → Except Unit String

/-- `ImageGenerator._generate_with_gemini_imagen`: try Gemini with the bare
prompt (no reference images); on a valid PNG, save it; on any failure
(exception, no candidates, no valid PNG part) fall back to DALL-E. -/
def generate_with_gemini_imagen (env : ImageEnv) (prompt : String) : Option String :=
  match respPngData (env.genContent [] prompt) with
  | some d => env.saveTemp d.data d.mime_type
  | none => dalle_fallback (env.dalleApi (dalle_truncate prompt))

/-- Per-character line of `_build_character_descriptions`. -/
def charDesc (c : PyCharacter) : String :=
  if optStrTruthy c.full_description then
    c.name ++ (": ") ++ c.full_description.getD ("")
  else
    let parts :=
      (if optStrTruthy c.appearance then [c.appearance.getD ("")] else [])
        ++ (if optStrTruthy c.personality then [c.personality.getD ("")] else [])
    c.name ++ (": ") ++ String.intercalate (", ") parts

/-- `ImageGenerator._build_character_descriptions`. -/
def _build_character_descriptions (characters : List PyCharacter) : String :=
  if characters.isEmpty then ""
  else String.intercalate ("; ") (characters.map charDesc)

/-- `ImageGenerator._build_illustration_prompt` (the prompts JSON file is
not part of the repository, so the in-code default strings apply). -/
def _build_illustration_prompt (scene_description : String)
    (characters : List PyCharacter) (book_title : String) : String :=
  let base_style :=
    "Children\x27s book illustration, cartoon style, bright colors, friendly atmosphere"
  let character_descriptions := _build_character_descriptions characters
  let prompt_parts :=
    [base_style, "Scene: " ++ scene_description]
      ++ (if character_descriptions.isEmpty then []
          else ["Characters should look like: " ++ character_descriptions])
      ++ (if book_title.isEmpty then []
          else ["This is for the children\x27s book \x27" ++ book_title ++ "\x27"])
      ++ ["Make it suitable for children aged 6-10", "Use bright, warm colors",
          "Safe and family-friendly content",
          "High quality illustration, no text or words"]
  String.intercalate (". ") prompt_parts

/-- `ImageGenerator._build_scene_with_references_prompt` (its `book_title`
parameter is unused in the source as well); the final `.strip()` of the
f-string template is applied by building the stripped text directly. -/
def _build_scene_with_references_prompt (scene_description_english : String)
    (characters_with_refs : List PyCharacter) (book_title : String) : String :=
  let style :=
    "Disney-Pixar children\x27s book illustration, 2D cartoon art, bright cheerful colors."
  let character_instructions :=
    characters_with_refs.enum.map (fun p =>
      toString (p.1 + 1) ++ (". ") ++ p.2.name ++ (": Reference image ")
        ++ toString (p.1 + 1) ++ (" shows this character"))
  let characters_text :=
    "Characters (maintain exact appearance from reference images):\n"
      ++ String.intercalate ("\n") character_instructions
  let composition :=
    "Composition: Wide shot showing all characters clearly, warm lighting, clean composition suitable for children\x27s book."
  let technical :=
    "Technical: High quality illustration, no text or words in image, family-friendly content, clear and simple composition."
  "Style: " ++ style ++ "\n\n" ++ characters_text ++ "\n\nScene: "
    ++ scene_description_english ++ "\n\n" ++ composition ++ "\n" ++ technical

/-- The filter `char.get('has_reference') and char.get('reference_image')`
in `generate_scene_with_references`. -/
def charHasRefB (c : PyCharacter) : Bool :=
  c.has_reference && optBytesTruthy c.reference_image

/-- `ImageGenerator._generate_illustration_legacy`: prompt-only generation,
Gemini first with DALL-E fallback; a falsy (empty) path is reported as
`None`. -/
def _generate_illustration_legacy (env : ImageEnv) (scene_description : String)
    (characters : List PyCharacter) (book_title : String) : Option String :=
  let full_prompt := _build_illustration_prompt scene_description characters book_title
  match generate_with_gemini_imagen env full_prompt with
  | some s => if s.isEmpty then none else some s
  | none => none

/-- The mutually recursive pair `generate_illustration` /
`generate_scene_with_references` (the latter falls back through
`_generate_scene_fallback`, whose body is exactly a `generate_illustration`
call).  The recursion terminates in the source because
`get_characters_with_references` builds dicts without a `book_id` key; the
embedding makes this explicit with a fuel parameter, where fuel exhaustion
(never reached from a real call) yields `none`. -/
inductive IllCall
  | genIllustration (scene_description : String) (characters : List PyCharacter)
      (book_title : String)
  | sceneWithRefs (scene_description : String) (characters : List PyCharacter)
      (book_title : String)

/-- Interpreter for `IllCall` (see its docstring). -/
def illustrationStep : Nat → ImageEnv → IllCall → Option String
  | 0, _, _ => none
  | fuel + 1, env, .genIllustration scene_description characters book_title =>
    match characters with
    | [] => _generate_illustration_legacy env scene_description characters book_title
    | c0 :: _ =>
      match c0.book_id with
      | some book_id =>
        let characters_with_refs :=
          get_characters_with_references env.b64 (env.dbRows book_id)
        if characters_with_refs.any (fun c => c.has_reference) then
          illustrationStep fuel env
            (.sceneWithRefs scene_description characters_with_refs book_title)
        else
          _generate_illustration_legacy env scene_description characters book_title
      | none =>
        _generate_illustration_legacy env scene_description characters book_title
  | fuel + 1, env, .sceneWithRefs scene_description characters book_title =>
    let scene_description_english := env.translate scene_description
    let characters_with_refs := characters.filter charHasRefB
    if characters_with_refs.isEmpty then
      illustrationStep fuel env (.genIllustration scene_description characters book_title)
    else
      let scene_prompt := _build_scene_with_references_prompt
        scene_description_english characters_with_refs book_title
      let reference_images := characters_with_refs.map (fun c => c.reference_image.getD [])
      match respPngData (env.genContent reference_images scene_prompt) with
      | some d => env.saveTemp d.data d.mime_type
      | none =>
        illustrationStep fuel env (.genIllustration scene_description characters book_title)

/-- `ImageGenerator.generate_illustration` (its unused `book_description`
parameter is omitted). -/
def generate_illustration (fuel : Nat) (env : ImageEnv) (scene_description : String)
    (characters : List PyCharacter) (book_title : String) : Option String :=
  illustrationStep fuel env (.genIllustration scene_description characters book_title)

/-- `ImageGenerator.generate_scene_with_references`. -/
def generate_scene_with_references (fuel : Nat) (env : ImageEnv)
    (scene_description : String) (characters : List PyCharacter)
    (book_title : String) : Option String :=
  illustrationStep fuel env (.sceneWithRefs scene_description characters book_title)

/-- `ImageGenerator._generate_scene_fallback`: a logged delegation to
`generate_illustration`. -/
def _generate_scene_fallback (fuel : Nat) (env : ImageEnv)
    (scene_description : String) (characters : List PyCharacter)
    (book_title : String) : Option String :=
  generate_illustration fuel env scene_description characters book_title

/-! ## Attribute lookup on the generator and database classes -/

/-- The attributes defined on `AIGenerator` (`utils/ai_generator.py`). -/
def AIGenerator_methods : List String :=
  ["__init__", "_load_prompts", "_build_system_prompt", "_format_characters_list",
   "_format_previous_chapters", "_extract_illustration_prompt", "generate_chapter",
   "openai_client", "prompts"]

/-- The attributes defined on `ImageGenerator` (`utils/image_generator.py`). -/
def ImageGenerator_methods : List String :=
  ["__init__", "_load_prompts", "_build_character_descriptions",
   "_build_illustration_prompt", "generate_illustration",
   "_generate_illustration_legacy", "_generate_with_gemini_imagen",
   "generate_character_reference", "_build_character_reference_prompt",
   "_compress_reference_image", "generate_scene_with_references",
   "_build_scene_with_references_prompt", "_generate_scene_fallback",
   "_save_temp_image", "_generate_with_dalle_fallback",
   "generate_illustration_dalle", "download_image",
   "text_model", "image_model", "prompts"]

/-- The attributes defined on `DatabaseManager` (`utils/database.py`). -/
def DatabaseManager_methods : List String :=
  ["__init__", "supabase", "get_or_create_user", "create_book", "get_user_books",
   "get_book", "create_character", "get_book_characters", "create_chapter",
   "get_book_chapters", "update_chapter_illustration", "save_character_reference",
   "get_character_reference", "get_characters_with_references",
   "check_character_has_reference"]

/-- Python attribute lookup: `getattr` succeeds exactly when the name is
defined on the class (these classes define nothing dynamically). -/
def hasMethod (methods : List String) (name : String) : Bool :=
  methods.contains name

/-! ## `api/bot.py`: background generation entry points -/

/-- An entry of `context.user_data['pending_references']`. -/
structure PendingRef where
  name : String
  description : String
deriving DecidableEq

/-- `StoryBot.start_async_reference_generation_threaded`: looking up
`generate_character_reference_data_threaded_async` on the image generator
happens inside the `try` block, before anything is appended; an
`AttributeError` is caught and logged, so the method returns the pending
list unchanged (second component: whether an exception was logged). -/
def start_async_reference_generation_threaded (pending : List PendingRef)
    (name description : String) : List PendingRef × Bool :=
  if hasMethod ImageGenerator_methods ("generate_character_reference_data_threaded_async") then
    (pending ++ [⟨name, description⟩], false)
  else (pending, true)

/-! ## `api/bot.py`: `generate_and_send_illustrations` result aggregation -/

/-- One settled entry of the `asyncio.gather(..., return_exceptions=True)`
result list: a raised exception, or the value returned by the generation
call (an image path/URL or `None`). -/
inductive GenResult
  | exn
  | val (url : Option String)
deriving DecidableEq

/-- Python truthiness of `image_url` for a settled result (an exception or
a falsy URL is not a success). -/
def isSuccessResult : GenResult → Bool
  | .val (some u) => !u.isEmpty
  | _ => false

/-- URL carried by a successful result. -/
def urlOf : GenResult → String
  | .val (some u) => u
  | _ => ""

/-- The final statistics message of `generate_and_send_illustrations`. -/
inductive FinalMsg
  | logOnly
  | createdKofN (k n : Nat)
  | allFailed
deriving DecidableEq

/-- Observable outcome of the aggregation loop. -/
structure IllusOutcome where
  successful : Nat
  persisted : Option String
  sent_indices : List Nat
  final_message : FinalMsg
deriving DecidableEq

/-- The `for (i, prompt, _), result in zip(tasks, results)` loop: skip
exceptions and falsy URLs, send each success, and persist the image of
request index 0 only (`if i == 0`). -/
def processResults : Nat → List GenResult → Nat × Option String × List Nat
  | _, [] => (0, none, [])
  | i, r :: rs =>
    let rest := processResults (i + 1) rs
    if isSuccessResult r then
      (rest.1 + 1, if i = 0 then some (urlOf r) else rest.2.1, i :: rest.2.2)
    else rest

/-- Result-processing stage of `generate_and_send_illustrations` (lines
1044-1115): aggregation, legacy persistence, and the outcome report.  Photo
sends and the database update are assumed not to raise. -/
def process_illustration_results (results : List GenResult)
    (num_illustrations : Nat) : IllusOutcome :=
  let p := processResults 0 results
  { successful := p.1,
    persisted := p.2.1,
    sent_indices := p.2.2,
    final_message :=
      if p.1 > 0 then
        if num_illustrations = 1 then .logOnly else .createdKofN p.1 num_illustrations
      else .allFailed }

/-- Modelled from the spec (for comparison with the code): "persist only the
first successful image's reference on the chapter record". -/
def spec_first_successful_url : List GenResult → Option String
  | [] => none
  | r :: rs => if isSuccessResult r then some (urlOf r) else spec_first_successful_url rs

/-- `StoryBot.generate_and_send_illustrations` as a whole: the prompt
generation call `ai_generator.generate_illustration_prompts` and the task
constructor `image_generator.generate_illustration_threaded_async` are
attribute lookups; if either is missing the `AttributeError` reaches the
outer handler, which logs and notifies the user of an error.  The would-be
gather results are a parameter of the model. -/
inductive IllustrationsRun
  | errorNotified
  | processed (outcome : IllusOutcome)
deriving DecidableEq

/-- See `IllustrationsRun`. -/
def generate_and_send_illustrations_run (results : List GenResult)
    (num_illustrations : Nat) : IllustrationsRun :=
  if hasMethod AIGenerator_methods ("generate_illustration_prompts")
      && hasMethod ImageGenerator_methods ("generate_illustration_threaded_async") then
    .processed (process_illustration_results results num_illustrations)
  else .errorNotified

/-! ## `api/bot.py`: `finish_characters` -/

/-- A draft character collected in `context.user_data['characters']`. -/
structure DraftCharacter where
  name : String
  full_description : String

/-- The settled result a pending reference task will deliver when awaited:
a raised exception, or the returned value (`None` or reference bytes). -/
inductive RefJobOutcome
  | exn
  | value (data : Option (List Nat))

/-- One entry of `pending_references` together with its eventual result. -/
structure PendingReference where
  name : String
  description : String
  outcome : RefJobOutcome

/-- Session state consumed by `finish_characters`. -/
structure FinishSession where
  book_title : String
  book_description : String
  characters : List DraftCharacter
  pending_references : List PendingReference

/-- Observable events emitted during `finish_characters`, in order. -/
inductive FinishEvent
  | bookCommitted (title : String)
  | characterCommitted (name : String)
  | jobAwaited (i : Nat)
  | referenceSaved (i : Nat)
  | portraitShown (i : Nat)
  | summaryRendered (references_created : Nat)
deriving DecidableEq

/-- The `for i, pending in enumerate(...)` loop of `finish_characters`:
each task is awaited in order inside a per-iteration `try`; a raised task,
a `None` result, an out-of-range `created_characters[i]` lookup
(`IndexError`), and the `AttributeError` from the missing
`db.save_character_reference_data` attribute are all caught there, so the
loop always continues to the next job.  Returns the `references_created`
counter and the emitted events. -/
def awaitPendingLoop (numChars : Nat) : Nat → List PendingReference → Nat × List FinishEvent
  | _, [] => (0, [])
  | i, p :: ps =>
    let rest := awaitPendingLoop numChars (i + 1) ps
    match p.outcome with
    | .exn => (rest.1, .jobAwaited i :: rest.2)
    | .value none => (rest.1, .jobAwaited i :: rest.2)
    | .value (some _) =>
      if i < numChars then
        if hasMethod DatabaseManager_methods ("save_character_reference_data") then
          (rest.1 + 1, .jobAwaited i :: .referenceSaved i :: .portraitShown i :: rest.2)
        else (rest.1, .jobAwaited i :: rest.2)
      else (rest.1, .jobAwaited i :: rest.2)

/-- `StoryBot.finish_characters` (success path: store calls do not raise):
commit the book, commit every draft character, await every pending
reference job, then render the final "book created" summary with the
`references_created` count; afterwards the pending list is reset and
`context.user_data.clear()` empties the session. -/
def finish_characters (s : FinishSession) : List FinishEvent × FinishSession :=
  let commitEvents :=
    FinishEvent.bookCommitted s.book_title
      :: s.characters.map (fun c => FinishEvent.characterCommitted c.name)
  let loopResult := awaitPendingLoop s.characters.length 0 s.pending_references
  (commitEvents ++ loopResult.2 ++ [FinishEvent.summaryRendered loopResult.1],
   { book_title := "", book_description := "", characters := [],
     pending_references := [] })

/-- Index of a `jobAwaited` event. -/
def awaitedIndex : FinishEvent → Option Nat
  | .jobAwaited i => some i
  | _ => none

/-- Is this event a successful reference persistence? -/
def isRefSavedEv : FinishEvent → Bool
  | .referenceSaved _ => true
  | _ => false

/-! ## `utils/ai_generator.py`: illustration marker extraction -/

/-- The literal header of the `[ИЛЛЮСТРАЦИЯ: ...]` marker regex. -/
def markerHeader : List Char := ("[ИЛЛЮСТРАЦИЯ:").data

/-- Case-insensitive character comparison (`re.IGNORECASE`). -/
def caseEq (a b : Char) : Bool := lowerCode a.toNat == lowerCode b.toNat

/-- Case-insensitive prefix test. -/
def caselessPref : List Char → List Char → Bool
  | [], _ => true
  | _ :: _, [] => false
  | p :: ps, c :: cs => caseEq p c && caselessPref ps cs

/-- Split a character list at its first `]`: the regex `[^\]]+` is greedy
over non-`]` characters, so a match's group runs to the first `]`. -/
def splitAtRB : List Char → Option (List Char × List Char)
  | [] => none
  | c :: cs =>
    if c = ']' then some ([], cs)
    else
      match splitAtRB cs with
      | some gr => some (c :: gr.1, gr.2)
      | none => none

/-- Try to match `\[ИЛЛЮСТРАЦИЯ:[^\]]+\]` (case-insensitively) at the head
of the list; on success return the captured group and the remainder after
the closing bracket.  The patterns of `re.search` (with `\s*`) and `re.sub`
match exactly the same spans, since `[^\]]` covers whitespace. -/
def matchMarkerAt (l : List Char) : Option (List Char × List Char) :=
  if caselessPref markerHeader l then
    match splitAtRB (l.drop markerHeader.length) with
    | some gr => if gr.1.isEmpty then none else some gr
    | none => none
  else none

/-- Leftmost marker match of `re.search`: the captured group of the first
position where the pattern matches. -/
def findMarkerGroup : List Char → Option (List Char)
  | [] => none
  | c :: cs =>
    match matchMarkerAt (c :: cs) with
    | some gr => some gr.1
    | none => findMarkerGroup cs

/-- The left-to-right non-overlapping replacement loop of `re.sub(..., '')`:
copy characters until a match starts, drop the matched span, continue after
it.  The fuel starts at the list length, which suffices because every match
consumes at least 15 characters. -/
def subMarkersAux : Nat → List Char → List Char
  | 0, _ => []
  | _ + 1, [] => []
  | fuel + 1, c :: cs =>
    match matchMarkerAt (c :: cs) with
    | some gr => subMarkersAux fuel gr.2
    | none => c :: subMarkersAux fuel cs

/-- `re.sub(r'\[ИЛЛЮСТРАЦИЯ:[^\]]+\]', '', s, flags=re.IGNORECASE)`. -/
def removeMarkersStr (s : String) : String := ⟨subMarkersAux s.data.length s.data⟩

/-- `AIGenerator._extract_illustration_prompt`. -/
def _extract_illustration_prompt (chapter_content : String) : String :=
  match findMarkerGroup chapter_content.data with
  | some g => ⟨stripChars g⟩
  | none => "сцена из детской книги с главными персонажами"

/-- The chapter dictionary returned by `AIGenerator.generate_chapter`. -/
structure GeneratedChapter where
  content : String
  title : String
  illustration_prompt : String
  word_count : Nat

/-- Post-processing stage of `AIGenerator.generate_chapter` applied to the
raw model output (lines 155-175): strip the raw text, extract the
illustration prompt, remove all markers from the stored content, and count
words on the cleaned text. -/
def process_chapter_content (raw : String) (chapter_number : Nat) : GeneratedChapter :=
  let chapter_content := pyStrip raw
  let illustration_prompt := _extract_illustration_prompt chapter_content
  let clean_content := pyStrip (removeMarkersStr chapter_content)
  let word_count_actual := (pyWords clean_content.data).length
  { content := clean_content,
    title := "Глава " ++ toString chapter_number,
    illustration_prompt := illustration_prompt,
    word_count := word_count_actual }

/-! ## Chapter numbering (`api/bot.py` `generate_chapter` + `database.py`) -/

/-- A row of the `chapters` table. -/
structure ChapterRecord where
  book_id : String
  chapter_number : Nat
  title : String
  content : String
  illustration_prompt : String
  word_count : Nat
deriving DecidableEq

/-- `DatabaseManager.create_chapter`: inserts the row it is given (the
chapter number is a caller-provided argument at this layer). -/
def create_chapter (chapters : List ChapterRecord) (book_id : String)
    (chapter_number : Nat) (title content illustration_prompt : String)
    (word_count : Nat) : ChapterRecord × List ChapterRecord :=
  let row : ChapterRecord :=
    { book_id := book_id, chapter_number := chapter_number, title := title,
      content := content, illustration_prompt := illustration_prompt,
      word_count := word_count }
  (row, chapters ++ [row])

/-- Persistence slice of `StoryBot.generate_chapter`: the pipeline reads the
book's chapters, computes `next_chapter_num = len(chapters) + 1` itself
(no caller supplies it), and stores the generated chapter under that
number. -/
def generate_chapter_pipeline (book_id : String) (chapters : List ChapterRecord)
    (generated : GeneratedChapter) : ChapterRecord × List ChapterRecord :=
  let next_chapter_num := chapters.length + 1
  create_chapter chapters book_id next_chapter_num generated.title
    generated.content generated.illustration_prompt generated.word_count

/-! ## Theorems -/

/-- C3, counterexample: the description "рост любит" has exactly 10
characters, contains the appearance keyword "рост" and the personality
keyword "любит", yet `analyze_character_description` reports it incomplete
(`missing_fields = ["details"]` with a non-empty clarification question),
because the code's short-description shortcut fires for every length
below 15, not 10. -/
theorem c3_counterexample :
    ("рост любит" : String).length = 10
    ∧ ("рост" ∈ appearance_keywords ∧ "любит" ∈ personality_keywords)
    ∧ strContains (pyLowerStr ("рост любит")) ("рост") = true
    ∧ strContains (pyLowerStr ("рост любит")) ("любит") = true
    ∧ (analyze_character_description ("Мурзик") ("рост любит")).missing_fields
        = ["details"]
    ∧ (analyze_character_description ("Мурзик") ("рост любит")).clarification_question
        ≠ "" := by
  refine ⟨by decide, ⟨by decide, by decide⟩, by decide, by decide, by decide, by decide⟩

/-- C3, amended: for every name and every description of length at least 15
(the code's actual threshold; the claim said 10) whose lowercasing contains
at least one appearance keyword and at least one personality keyword,
`analyze_character_description` returns empty `missing_fields` and an empty
clarification question, so no clarification step is entered. -/
theorem c3_amended (name description : String)
    (hlen : 15 ≤ description.length)
    (ha : appearance_keywords.any (fun w => strContains (pyLowerStr description) w) = true)
    (hp : personality_keywords.any (fun w => strContains (pyLowerStr description) w) = true) :
    analyze_character_description name description
      = { missing_fields := [], clarification_question := "" } := by
  unfold analyze_character_description
  rw [if_neg (by omega)]
  simp only [ha, hp, if_true, List.nil_append, List.isEmpty_nil, if_pos]

/-- Witness for `c3_amended` at a concrete complete description. -/
theorem c3_amended_witness :
    analyze_character_description ("Мурзик") ("рыжий кот, очень добрый")
      = { missing_fields := [], clarification_question := "" } :=
  c3_amended ("Мурзик") ("рыжий кот, очень добрый") (by decide) (by decide) (by decide)

/-- C8: in the `AwaitingBookTitle` step, every (stripped) submitted title
of length below 3 or above 100 is rejected with a user-facing message and
the conversation stays in `CREATE_BOOK_TITLE` with nothing stored (the
handler is a total function, so no fatal error is raised); every title of
length in `[3, 100]` is stored as the draft title and advances the flow to
`CREATE_BOOK_DESCRIPTION`. -/
theorem c8_title_validation (text : String) :
    (((pyStrip text).length < 3 ∨ 100 < (pyStrip text).length) →
      (handle_book_title text).next_state = CREATE_BOOK_TITLE
      ∧ (handle_book_title text).stored_title = none
      ∧ (handle_book_title text).reply ≠ "")
    ∧ (3 ≤ (pyStrip text).length → (pyStrip text).length ≤ 100 →
      (handle_book_title text).next_state = CREATE_BOOK_DESCRIPTION
      ∧ (handle_book_title text).stored_title = some (pyStrip text)) := by
  unfold handle_book_title
  constructor
  · intro h
    rcases h with h | h
    · rw [if_pos h]
      refine ⟨rfl, rfl, by decide⟩
    · rw [if_neg (by omega), if_pos (by omega)]
      refine ⟨rfl, rfl, by decide⟩
  · intro h1 h2
    rw [if_neg (by omega), if_neg (by omega)]
    exact ⟨rfl, rfl⟩

/-- Witness for `c8_title_validation`: the 3-character title "Кот" is
accepted and stored. -/
theorem c8_title_validation_witness :
    (handle_book_title ("Кот")).next_state = CREATE_BOOK_DESCRIPTION
    ∧ (handle_book_title ("Кот")).stored_title = some (pyStrip ("Кот")) :=
  (c8_title_validation ("Кот")).2 (by decide) (by decide)

/-- C2: the background-generation entry points never produce an image:
`generate_illustration_prompts` is not an attribute of `AIGenerator`, and
`generate_illustration_threaded_async` /
`generate_character_reference_data_threaded_async` are not attributes of
`ImageGenerator`, so each call raises `AttributeError`.  The error is
caught (and logged), every run of `generate_and_send_illustrations` ends in
the error notification rather than the processing branch, and
`start_async_reference_generation_threaded` leaves the pending-references
list unchanged (in particular empty when it started empty) while reporting
a logged exception. -/
theorem c2_background_generation_unreachable :
    hasMethod AIGenerator_methods ("generate_illustration_prompts") = false
    ∧ hasMethod ImageGenerator_methods ("generate_illustration_threaded_async") = false
    ∧ hasMethod ImageGenerator_methods
        ("generate_character_reference_data_threaded_async") = false
    ∧ (∀ results num_illustrations,
        generate_and_send_illustrations_run results num_illustrations
          = IllustrationsRun.errorNotified)
    ∧ (∀ pending name description,
        start_async_reference_generation_threaded pending name description
          = (pending, true)) := by
  refine ⟨by decide, by decide, by decide, ?_, ?_⟩
  · intro results num_illustrations
    unfold generate_and_send_illustrations_run
    rw [if_neg]
    rw [Bool.and_eq_true]
    intro h
    exact absurd h.1 (by decide)
  · intro pending name description
    unfold start_async_reference_generation_threaded
    rw [if_neg]
    intro h
    exact absurd h (by decide)

/-- C9: the generation pipeline assigns the next chapter the number
`count(existing chapters) + 1` (so `1` for a book with no chapters), and
when the existing chapters are numbered gaplessly `1..n` the new chapter
gets `n + 1`; the number is computed inside the pipeline, whose interface
takes no chapter number from its caller (while `create_chapter` at the
database layer stores whatever number it is handed). -/
theorem c9_chapter_numbering (book_id : String) (chapters : List ChapterRecord)
    (generated : GeneratedChapter) :
    ((generate_chapter_pipeline book_id chapters generated).1).chapter_number
      = chapters.length + 1
    ∧ (chapters = [] →
        ((generate_chapter_pipeline book_id chapters generated).1).chapter_number = 1)
    ∧ (∀ n, chapters.map (fun c => c.chapter_number) = (List.range n).map Nat.succ →
        ((generate_chapter_pipeline book_id chapters generated).1).chapter_number
          = n + 1) := by
  refine ⟨rfl, ?_, ?_⟩
  · intro h; subst h; rfl
  · intro n h
    have hlen : chapters.length = n := by
      have := congrArg List.length h
      simpa using this
    simp [generate_chapter_pipeline, create_chapter, hlen]

/-- Witness for `c9_chapter_numbering`: a book with chapters numbered
`[1, 2, 3]` gets chapter 4 next. -/
theorem c9_chapter_numbering_witness :
    ((generate_chapter_pipeline ("b")
        [{ book_id := "b", chapter_number := 1, title := "", content := "",
           illustration_prompt := "", word_count := 0 },
         { book_id := "b", chapter_number := 2, title := "", content := "",
           illustration_prompt := "", word_count := 0 },
         { book_id := "b", chapter_number := 3, title := "", content := "",
           illustration_prompt := "", word_count := 0 }]
        { content := "", title := "", illustration_prompt := "", word_count := 0 }).1).chapter_number
      = 4 :=
  (c9_chapter_numbering ("b") _ _).2.2 3 (by decide)

/-- Helper: with a positive starting index, the loop never persists
anything (`if i == 0` can only fire for request index 0). -/
theorem processResults_persisted_none (rs : List GenResult) :
    ∀ i, 1 ≤ i → (processResults i rs).2.1 = none := by
  induction rs with
  | nil => intro i _; rfl
  | cons r rs ih =>
    intro i hi
    unfold processResults
    by_cases hs : isSuccessResult r = true
    · simp only [hs, if_true, if_neg (by omega : ¬i = 0)]
      exact ih (i + 1) (by omega)
    · simp only [Bool.not_eq_true] at hs
      simp only [hs, Bool.false_eq_true, if_false]
      exact ih (i + 1) (by omega)

/-- Helper: the success counter of the aggregation loop counts exactly the
truthy results. -/
theorem processResults_count (rs : List GenResult) :
    ∀ i, (processResults i rs).1 = rs.countP isSuccessResult := by
  induction rs with
  | nil => intro i; rfl
  | cons r rs ih =>
    intro i
    unfold processResults
    by_cases hs : isSuccessResult r = true
    · simp [hs, List.countP_cons, ih (i + 1)]
    · simp only [Bool.not_eq_true] at hs
      simp [hs, List.countP_cons, ih (i + 1)]

/-- C1, counterexample: in a batch of two requests where request #0 fails
(its task raised) and request #1 succeeds with URL "u", the aggregation
loop persists nothing on the chapter record, although the first successful
image's reference is "u" — the code persists only under `if i == 0`, so a
failure of request #0 means no reference is persisted at all. -/
theorem c1_counterexample :
    (process_illustration_results [GenResult.exn, GenResult.val (some ("u"))] 2).persisted
      = none
    ∧ spec_first_successful_url [GenResult.exn, GenResult.val (some ("u"))]
      = some ("u") := by
  refine ⟨by decide, by decide⟩

/-- C1, amended: the aggregation persists the image of request index 0 on
the chapter record exactly when that request itself succeeds; when request
#0 fails nothing is persisted even if later requests succeed.  The
reporting part of the claim holds as stated: a run with at least one
success and at least one failure is reported as "created k of n" (a
constructor distinct from the zero-success failure report), and a run with
zero successes is reported as the failure outcome. -/
theorem c1_batch_aggregation (results : List GenResult) (num_illustrations : Nat) :
    (∀ u, results.head? = some (GenResult.val (some u)) → u.isEmpty = false →
      (process_illustration_results results num_illustrations).persisted = some u)
    ∧ ((∀ r, results.head? = some r → isSuccessResult r = false) →
      (process_illustration_results results num_illustrations).persisted = none)
    ∧ (num_illustrations = results.length →
      (∃ r ∈ results, isSuccessResult r = true) →
      (∃ r ∈ results, isSuccessResult r = false) →
      (process_illustration_results results num_illustrations).final_message
          = FinalMsg.createdKofN
              (process_illustration_results results num_illustrations).successful
              num_illustrations
        ∧ (process_illustration_results results num_illustrations).final_message
          ≠ FinalMsg.allFailed)
    ∧ ((∀ r ∈ results, isSuccessResult r = false) →
      (process_illustration_results results num_illustrations).final_message
        = FinalMsg.allFailed) := by
  refine ⟨?_, ?_, ?_, ?_⟩
  · intro u hhead hu
    cases results with
    | nil => simp at hhead
    | cons r rs =>
      simp only [List.head?_cons, Option.some.injEq] at hhead
      subst hhead
      have hs : isSuccessResult (GenResult.val (some u)) = true := by
        simp [isSuccessResult, hu]
      simp only [process_illustration_results]
      unfold processResults
      simp [hs, urlOf]
  · intro hfail
    cases results with
    | nil => rfl
    | cons r rs =>
      have hs := hfail r (by simp)
      simp only [process_illustration_results]
      unfold processResults
      simp only [hs, Bool.false_eq_true, if_false]
      exact processResults_persisted_none rs 1 (by omega)
  · intro hnum hsucc hfail
    have hkpos : 0 < (processResults 0 results).1 := by
      rw [processResults_count]
      rcases hsucc with ⟨r, hr, hs⟩
      exact List.countP_pos_iff.mpr ⟨r, hr, hs⟩
    have hlen2 : 2 ≤ results.length := by
      rcases hsucc with ⟨r, hr, hs⟩
      rcases hfail with ⟨r', hr', hs'⟩
      cases results with
      | nil => simp at hr
      | cons a l =>
        cases l with
        | nil =>
          simp only [List.mem_singleton] at hr hr'
          subst hr; subst hr'
          rw [hs] at hs'; cases hs'
        | cons b m =>
          show 2 ≤ m.length + 1 + 1
          omega
    have hne1 : num_illustrations ≠ 1 := by omega
    have hmsg : (process_illustration_results results num_illustrations).final_message
        = FinalMsg.createdKofN (processResults 0 results).1 num_illustrations := by
      simp only [process_illustration_results]
      rw [if_pos hkpos, if_neg hne1]
    have hsuc : (process_illustration_results results num_illustrations).successful
        = (processResults 0 results).1 := rfl
    refine ⟨by rw [hmsg, hsuc], ?_⟩
    rw [hmsg]
    intro h
    exact FinalMsg.noConfusion h
  · intro hall
    have hzero : (processResults 0 results).1 = 0 := by
      rw [processResults_count]
      exact List.countP_eq_zero.mpr (by intro a ha; simp [hall a ha])
    simp only [process_illustration_results]
    rw [if_neg (by omega)]

/-- Witness for `c1_batch_aggregation`: the two-request batch with one
failure and one success is reported as "created k of 2", not as the
zero-success failure outcome. -/
theorem c1_batch_aggregation_witness :
    (process_illustration_results [GenResult.exn, GenResult.val (some ("v"))] 2).final_message
      = FinalMsg.createdKofN
          (process_illustration_results [GenResult.exn, GenResult.val (some ("v"))] 2).successful
          2 :=
  ((c1_batch_aggregation [GenResult.exn, GenResult.val (some ("v"))] 2).2.2.1
    (by decide)
    ⟨GenResult.val (some ("v")), by decide, by decide⟩
    ⟨GenResult.exn, by decide, by decide⟩).1

/-- C5: the provider chain is structurally Gemini-then-DALL-E.  Whenever
Gemini yields no valid PNG payload (exception, missing candidates, or a
payload that does not begin with the PNG signature — never treated as a
success), the operation returns exactly the DALL-E outcome: the second
provider's URL on its success, and the single failure value `none` when
that provider fails as well. -/
theorem c5_provider_fallback_chain (env : ImageEnv) (prompt : String)
    (h : respPngData (env.genContent [] prompt) = none) :
    generate_with_gemini_imagen env prompt
      = dalle_fallback (env.dalleApi (dalle_truncate prompt))
    ∧ (∀ url, dalle_fallback (Except.ok url) = some url)
    ∧ (∀ e, dalle_fallback (Except.error e) = none) := by
  refine ⟨?_, fun url => rfl, fun e => rfl⟩
  unfold generate_with_gemini_imagen
  rw [h]

/-- Witness for `c5_provider_fallback_chain`: a Gemini response whose only
payload lacks the PNG signature is treated as a failure, and the chain
returns the DALL-E outcome. -/
theorem c5_provider_fallback_chain_witness :
    generate_with_gemini_imagen
      ({ translate := fun s => s, dbRows := fun _ => [], b64 := fun _ => none,
         genContent := fun _ _ =>
           Except.ok ⟨[⟨[⟨some ⟨"image/png", [1, 2, 3]⟩⟩]⟩]⟩,
         saveTemp := fun _ _ => none,
         dalleApi := fun _ => Except.ok ("http://dalle.example/img") })
      ("p")
      = dalle_fallback (Except.ok ("http://dalle.example/img")) :=
  (c5_provider_fallback_chain _ ("p") (by rfl)).1

/-- Helper: every character dict built by a successful `rowToChar` has no
`book_id` key. -/
theorem rowToChar_book_id_none (b64 : String → Option (List Nat)) (row : DbCharRow)
    (c : PyCharacter) (h : rowToChar b64 row = Except.ok c) : c.book_id = none := by
  unfold rowToChar at h
  split at h
  · split at h
    · split at h
      · cases h; rfl
      · cases h
    · cases h; rfl
  · cases h; rfl

/-- Helper: every member of a successful `rowLoop` result comes from a
successful `rowToChar`, hence has no `book_id` key. -/
theorem rowLoop_book_id_none (b64 : String → Option (List Nat)) :
    ∀ rows chars, rowLoop b64 rows = Except.ok chars →
      ∀ c ∈ chars, c.book_id = none := by
  intro rows
  induction rows with
  | nil =>
    intro chars h c hc
    cases h
    simp at hc
  | cons r rs ih =>
    intro chars h c hc
    unfold rowLoop at h
    cases h1 : rowToChar b64 r with
    | error e => rw [h1] at h; cases h
    | ok c0 =>
      rw [h1] at h
      cases h2 : rowLoop b64 rs with
      | error e => rw [h2] at h; cases h
      | ok cs =>
        rw [h2] at h
        cases h
        rcases List.mem_cons.mp hc with hc | hc
        · subst hc; exact rowToChar_book_id_none b64 r c h1
        · exact ih cs h2 c hc

/-- Helper: the dicts built by `get_characters_with_references` carry no
`book_id` key — the fact that terminates the fallback recursion. -/
theorem get_characters_with_references_book_id_none
    (b64 : String → Option (List Nat)) (rows : List DbCharRow) :
    ∀ c ∈ get_characters_with_references b64 rows, c.book_id = none := by
  intro c hc
  unfold get_characters_with_references at hc
  cases h : rowLoop b64 rows with
  | error e => rw [h] at hc; simp at hc
  | ok chars => rw [h] at hc; exact rowLoop_book_id_none b64 rows chars h c hc

/-- C4: whenever `generate_scene_with_references` finds zero characters
with stored references (the `has_reference`-and-bytes filter is empty), or
its reference-aware Gemini attempt yields no valid image (exception, no
candidate, or a payload without the PNG signature), it falls back — through
`_generate_scene_fallback` / `generate_illustration` — to
`_generate_illustration_legacy`, the prompt-only path that attaches no
reference images to the request (its Gemini call passes `[]` as reference
inputs).  The `book_id = none` hypothesis is exactly the shape of the
dicts the real caller passes, as the second conjunct shows. -/
theorem c4_scene_reference_fallback (fuel : Nat) (env : ImageEnv)
    (scene_description : String) (characters : List PyCharacter)
    (book_title : String)
    (hbid : ∀ c ∈ characters, c.book_id = none)
    (hfail : characters.filter charHasRefB = []
      ∨ respPngData (env.genContent
          ((characters.filter charHasRefB).map (fun c => c.reference_image.getD []))
          (_build_scene_with_references_prompt (env.translate scene_description)
            (characters.filter charHasRefB) book_title)) = none) :
    generate_scene_with_references (fuel + 2) env scene_description characters book_title
      = _generate_illustration_legacy env scene_description characters book_title
    ∧ (∀ b64 rows, ∀ c ∈ get_characters_with_references b64 rows, c.book_id = none) := by
  refine ⟨?_, fun b64 rows => get_characters_with_references_book_id_none b64 rows⟩
  have hlegacy :
      illustrationStep (fuel + 1) env
        (IllCall.genIllustration scene_description characters book_title)
        = _generate_illustration_legacy env scene_description characters book_title := by
    cases hcs : characters with
    | nil => rfl
    | cons c0 rest =>
      have h0 : c0.book_id = none := hbid c0 (by rw [hcs]; exact List.mem_cons_self c0 rest)
      show (match c0.book_id with
        | some book_id =>
          let characters_with_refs :=
            get_characters_with_references env.b64 (env.dbRows book_id)
          if characters_with_refs.any (fun c => c.has_reference) then
            illustrationStep fuel env
              (.sceneWithRefs scene_description characters_with_refs book_title)
          else
            _generate_illustration_legacy env scene_description (c0 :: rest) book_title
        | none =>
          _generate_illustration_legacy env scene_description (c0 :: rest) book_title)
        = _generate_illustration_legacy env scene_description (c0 :: rest) book_title
      rw [h0]
  show (let scene_description_english := env.translate scene_description
        let characters_with_refs := characters.filter charHasRefB
        if characters_with_refs.isEmpty then
          illustrationStep (fuel + 1) env
            (.genIllustration scene_description characters book_title)
        else
          let scene_prompt := _build_scene_with_references_prompt
            scene_description_english characters_with_refs book_title
          let reference_images :=
            characters_with_refs.map (fun c => c.reference_image.getD [])
          match respPngData (env.genContent reference_images scene_prompt) with
          | some d => env.saveTemp d.data d.mime_type
          | none =>
            illustrationStep (fuel + 1) env
              (.genIllustration scene_description characters book_title))
      = _generate_illustration_legacy env scene_description characters book_title
  by_cases hemp : (characters.filter charHasRefB).isEmpty = true
  · simp only [hemp, if_pos]
    exact hlegacy
  · rcases hfail with hfail | hfail
    · rw [hfail] at hemp
      simp at hemp
    · simp only [hemp, Bool.false_eq_true, if_false]
      rw [hfail]
      exact hlegacy

/-- Witness for `c4_scene_reference_fallback`: with no referenced
characters at all, the scene generator resolves to the legacy prompt-only
path. -/
theorem c4_scene_reference_fallback_witness :
    generate_scene_with_references 2
      ({ translate := fun s => s, dbRows := fun _ => [], b64 := fun _ => none,
         genContent := fun _ _ => Except.error (), saveTemp := fun _ _ => none,
         dalleApi := fun _ => Except.error () })
      ("лес") [] ("Сказка")
      = _generate_illustration_legacy
          ({ translate := fun s => s, dbRows := fun _ => [], b64 := fun _ => none,
             genContent := fun _ _ => Except.error (), saveTemp := fun _ _ => none,
             dalleApi := fun _ => Except.error () })
          ("лес") [] ("Сказка") :=
  (c4_scene_reference_fallback 0 _ ("лес") [] ("Сказка")
    (by intro c hc; simp at hc) (Or.inl rfl)).1

/-- Helper: `String.data` distributes over append. -/
theorem string_data_append (s t : String) : (s ++ t).data = s.data ++ t.data := by
  cases s; cases t; rfl

/-- Helper: each encoded hex digit decodes back to its value and is not
whitespace. -/
theorem natToHexDigit_val :
    ∀ m < 16, hexDigitVal (natToHexDigit m) = some m
      ∧ isPySpace (natToHexDigit m) = false := by decide

/-- Helper: decoding the hex pairs of an encoded byte string recovers the
bytes. -/
theorem hexPairs_of_bytes :
    ∀ bs : List Nat, (∀ b ∈ bs, b < 256) →
      hexPairsToBytes ((bs.map byteToHexChars).flatten) = some bs := by
  intro bs
  induction bs with
  | nil => intro _; rfl
  | cons b rest ih =>
    intro h
    have hb : b < 256 := h b (List.mem_cons_self b rest)
    have hdiv : b / 16 < 16 := Nat.div_lt_of_lt_mul (by omega)
    have hmod : b % 16 < 16 := Nat.mod_lt b (by omega)
    show hexPairsToBytes (natToHexDigit (b / 16) :: natToHexDigit (b % 16)
        :: (rest.map byteToHexChars).flatten) = some (b :: rest)
    simp only [hexPairsToBytes]
    rw [(natToHexDigit_val (b / 16) hdiv).1, (natToHexDigit_val (b % 16) hmod).1,
      ih (fun x hx => h x (List.mem_cons_of_mem b hx))]
    show some ((16 * (b / 16) + b % 16) :: rest) = some (b :: rest)
    rw [Nat.div_add_mod b 16]

/-- Helper: the encoded hex digits contain no whitespace, so the
`bytes.fromhex` whitespace filter is the identity on them. -/
theorem hex_filter_id (bs : List Nat) (h : ∀ b ∈ bs, b < 256) :
    ((bs.map byteToHexChars).flatten).filter (fun c => !isPySpace c)
      = (bs.map byteToHexChars).flatten := by
  apply List.filter_eq_self.mpr
  intro c hc
  rcases List.mem_flatten.mp hc with ⟨l, hl, hcl⟩
  rcases List.mem_map.mp hl with ⟨b, hb, rfl⟩
  have hb' : b < 256 := h b hb
  have hdiv : b / 16 < 16 := Nat.div_lt_of_lt_mul (by omega)
  have hmod : b % 16 < 16 := Nat.mod_lt b (by omega)
  rcases List.mem_cons.mp hcl with rfl | hcl2
  · simp [(natToHexDigit_val (b / 16) hdiv).2]
  · rcases List.mem_cons.mp hcl2 with rfl | hcl3
    · simp [(natToHexDigit_val (b % 16) hmod).2]
    · exact absurd hcl3 (List.not_mem_nil c)

/-- C10: `save_character_reference` stores the bytes as the string `"\x"`
followed by their hex digits, and `get_character_reference`, reading back
that string, decodes it to exactly the original bytes (round trip),
whatever the base64 fallback oracle does. -/
theorem c10_reference_roundtrip (image_data : List Nat) (prompt : String)
    (b64 : String → Option (List Nat)) (h : ∀ b ∈ image_data, b < 256) :
    (save_character_reference image_data prompt).reference_image
      = ("\\x") ++ pyBytesHex image_data
    ∧ (save_character_reference image_data prompt).has_reference = true
    ∧ get_character_reference b64
        (some (StoredValue.str
          ((save_character_reference image_data prompt).reference_image)))
      = some image_data := by
  refine ⟨rfl, rfl, ?_⟩
  have hdata : (("\\x") ++ pyBytesHex image_data).data
      = '\\' :: 'x' :: (pyBytesHex image_data).data := by
    rw [string_data_append]; rfl
  have htruthy : storedTruthy (some (StoredValue.str
      (("\\x") ++ pyBytesHex image_data))) = true := by
    simp [storedTruthy, hdata]
  have hpre : strStartsWith (("\\x") ++ pyBytesHex image_data) ("\\x") = true := by
    simp [strStartsWith, hdata, listIsPrefixB]
  show get_character_reference b64
      (some (StoredValue.str (("\\x") ++ pyBytesHex image_data))) = some image_data
  simp only [get_character_reference, decodeStored, htruthy, hpre, if_true]
  unfold pyStrDrop pyBytesFromHex
  rw [hdata]
  show hexPairsToBytes (((image_data.map byteToHexChars).flatten).filter
      (fun c => !isPySpace c)) = some image_data
  rw [hex_filter_id image_data h]
  exact hexPairs_of_bytes image_data h

/-- Witness for `c10_reference_roundtrip`: the PNG-signature bytes survive
the hex round trip. -/
theorem c10_reference_roundtrip_witness :
    get_character_reference (fun _ => none)
      (some (StoredValue.str
        ((save_character_reference [137, 80, 78, 71] ("p")).reference_image)))
      = some [137, 80, 78, 71] :=
  (c10_reference_roundtrip [137, 80, 78, 71] ("p") (fun _ => none) (by decide)).2.2

/-- Helper: `save_character_reference_data` is not defined on
`DatabaseManager`. -/
theorem db_save_data_missing :
    hasMethod DatabaseManager_methods ("save_character_reference_data") = false := by
  decide

/-- Helper: the await loop touches every job, in launch order: the awaited
indices are exactly `i, i+1, ...` for the whole list. -/
theorem awaitLoop_filterMap (n : Nat) :
    ∀ ps : List PendingReference, ∀ i,
      ((awaitPendingLoop n i ps).2).filterMap awaitedIndex = List.range' i ps.length := by
  intro ps
  induction ps with
  | nil => intro i; rfl
  | cons p ps ih =>
    intro i
    show ((match p.outcome with
      | .exn => ((awaitPendingLoop n (i + 1) ps).1,
          FinishEvent.jobAwaited i :: (awaitPendingLoop n (i + 1) ps).2)
      | .value none => ((awaitPendingLoop n (i + 1) ps).1,
          FinishEvent.jobAwaited i :: (awaitPendingLoop n (i + 1) ps).2)
      | .value (some _) =>
        if i < n then
          if hasMethod DatabaseManager_methods ("save_character_reference_data") then
            ((awaitPendingLoop n (i + 1) ps).1 + 1,
              FinishEvent.jobAwaited i :: FinishEvent.referenceSaved i
                :: FinishEvent.portraitShown i :: (awaitPendingLoop n (i + 1) ps).2)
          else ((awaitPendingLoop n (i + 1) ps).1,
            FinishEvent.jobAwaited i :: (awaitPendingLoop n (i + 1) ps).2)
        else ((awaitPendingLoop n (i + 1) ps).1,
          FinishEvent.jobAwaited i :: (awaitPendingLoop n (i + 1) ps).2)).2).filterMap
        awaitedIndex = List.range' i (ps.length + 1)
    have hstep : List.range' i (ps.length + 1) = i :: List.range' (i + 1) ps.length := rfl
    cases hout : p.outcome with
    | exn => simp [List.filterMap_cons, awaitedIndex, ih (i + 1), hstep]
    | value d =>
      cases d with
      | none => simp [List.filterMap_cons, awaitedIndex, ih (i + 1), hstep]
      | some b =>
        by_cases hi : i < n
        · simp [hi, db_save_data_missing, List.filterMap_cons, awaitedIndex,
            ih (i + 1), hstep]
        · simp [hi, List.filterMap_cons, awaitedIndex, ih (i + 1), hstep]

/-- Helper: since `save_character_reference_data` is missing, no iteration
ever persists a reference and the counter stays zero, while the loop still
emits no `referenceSaved` event and never aborts. -/
theorem awaitLoop_no_saves (n : Nat) :
    ∀ ps : List PendingReference, ∀ i,
      (awaitPendingLoop n i ps).1 = 0
      ∧ ((awaitPendingLoop n i ps).2).filter isRefSavedEv = [] := by
  intro ps
  induction ps with
  | nil => intro i; exact ⟨rfl, rfl⟩
  | cons p ps ih =>
    intro i
    unfold awaitPendingLoop
    cases hout : p.outcome with
    | exn => simp [List.filter_cons, isRefSavedEv, ih (i + 1)]
    | value d =>
      cases d with
      | none => simp [List.filter_cons, isRefSavedEv, ih (i + 1)]
      | some b =>
        by_cases hi : i < n
        · simp [hi, db_save_data_missing, List.filter_cons, isRefSavedEv, ih (i + 1)]
        · simp [hi, List.filter_cons, isRefSavedEv, ih (i + 1)]

/-- C6: on `finish` from the character menu, `finish_characters` first
commits the book and every draft character (they form the initial prefix of
the event trace), then awaits every pending reference job in launch order
(the awaited indices are exactly `0..n-1`, one per launched job, and a job
failure aborts neither its siblings nor the flow), renders the final "book
created" summary only after all jobs have settled (it is the last event),
reports exactly the number of references actually persisted (which is zero:
the `db.save_character_reference_data` attribute the success path needs
does not exist, so every save attempt raises and is swallowed by the
per-iteration handler), and leaves the pending set empty. -/
theorem c6_finish_characters_join (s : FinishSession) :
    ((finish_characters s).1).take (1 + s.characters.length)
      = FinishEvent.bookCommitted s.book_title
          :: s.characters.map (fun c => FinishEvent.characterCommitted c.name)
    ∧ ((finish_characters s).1).filterMap awaitedIndex
      = List.range s.pending_references.length
    ∧ ((finish_characters s).1).getLast?
      = some (FinishEvent.summaryRendered
          ((((finish_characters s).1).filter isRefSavedEv).length))
    ∧ ((finish_characters s).1).filter isRefSavedEv = []
    ∧ ((finish_characters s).2).pending_references = [] := by
  have hcount := (awaitLoop_no_saves s.characters.length s.pending_references 0).1
  have hfilter := (awaitLoop_no_saves s.characters.length s.pending_references 0).2
  have hcommit_fm :
      (FinishEvent.bookCommitted s.book_title
        :: s.characters.map (fun c => FinishEvent.characterCommitted c.name)).filterMap
        awaitedIndex = [] := by
    simp only [List.filterMap_cons, List.filterMap_map]
    show List.filterMap ((fun e => awaitedIndex e) ∘ fun c =>
        FinishEvent.characterCommitted c.name) s.characters = []
    simp [Function.comp, awaitedIndex]
  have hcommit_fl :
      (FinishEvent.bookCommitted s.book_title
        :: s.characters.map (fun c => FinishEvent.characterCommitted c.name)).filter
        isRefSavedEv = [] := by
    simp only [List.filter_cons, List.filter_map]
    show (if isRefSavedEv (FinishEvent.bookCommitted s.book_title) = true then _ else
      List.map (fun c => FinishEvent.characterCommitted c.name)
        (s.characters.filter (fun c => isRefSavedEv (FinishEvent.characterCommitted c.name))))
        = []
    simp [isRefSavedEv]
  refine ⟨?_, ?_, ?_, ?_, rfl⟩
  · show ((FinishEvent.bookCommitted s.book_title
        :: s.characters.map (fun c => FinishEvent.characterCommitted c.name))
        ++ (awaitPendingLoop s.characters.length 0 s.pending_references).2
        ++ [FinishEvent.summaryRendered
            (awaitPendingLoop s.characters.length 0 s.pending_references).1]).take
        (1 + s.characters.length)
      = FinishEvent.bookCommitted s.book_title
          :: s.characters.map (fun c => FinishEvent.characterCommitted c.name)
    rw [List.append_assoc]
    apply List.take_left'
    simp
    omega
  · show ((FinishEvent.bookCommitted s.book_title
        :: s.characters.map (fun c => FinishEvent.characterCommitted c.name))
        ++ (awaitPendingLoop s.characters.length 0 s.pending_references).2
        ++ [FinishEvent.summaryRendered
            (awaitPendingLoop s.characters.length 0 s.pending_references).1]).filterMap
        awaitedIndex = List.range s.pending_references.length
    rw [List.filterMap_append, List.filterMap_append, hcommit_fm,
      awaitLoop_filterMap s.characters.length s.pending_references 0]
    simp [awaitedIndex, List.range_eq_range']
  · show ((FinishEvent.bookCommitted s.book_title
        :: s.characters.map (fun c => FinishEvent.characterCommitted c.name))
        ++ (awaitPendingLoop s.characters.length 0 s.pending_references).2
        ++ [FinishEvent.summaryRendered
            (awaitPendingLoop s.characters.length 0 s.pending_references).1]).getLast?
      = some (FinishEvent.summaryRendered
          ((((finish_characters s).1).filter isRefSavedEv).length))
    rw [List.getLast?_concat]
    have hzero : (((finish_characters s).1).filter isRefSavedEv).length = 0 := by
      show (((FinishEvent.bookCommitted s.book_title
          :: s.characters.map (fun c => FinishEvent.characterCommitted c.name))
          ++ (awaitPendingLoop s.characters.length 0 s.pending_references).2
          ++ [FinishEvent.summaryRendered
              (awaitPendingLoop s.characters.length 0 s.pending_references).1]).filter
          isRefSavedEv).length = 0
      rw [List.filter_append, List.filter_append, hcommit_fl, hfilter]
      simp [isRefSavedEv]
    rw [hzero, hcount]
  · show ((FinishEvent.bookCommitted s.book_title
        :: s.characters.map (fun c => FinishEvent.characterCommitted c.name))
        ++ (awaitPendingLoop s.characters.length 0 s.pending_references).2
        ++ [FinishEvent.summaryRendered
            (awaitPendingLoop s.characters.length 0 s.pending_references).1]).filter
        isRefSavedEv = []
    rw [List.filter_append, List.filter_append, hcommit_fl, hfilter]
    simp [isRefSavedEv]

/-- Helper: `Char.toNat` is injective. -/
theorem char_toNat_inj {a b : Char} (h : a.toNat = b.toNat) : a = b :=
  Char.ext (UInt32.ext h)

/-- Helper: `String.mk` of a string's data is the string itself. -/
theorem string_eta (s : String) : (⟨s.data⟩ : String) = s := by cases s; rfl

/-- Helper: case-insensitive comparison is reflexive. -/
theorem caseEq_refl (a : Char) : caseEq a a = true := by simp [caseEq]

/-- Helper: a literal matched case-insensitively against itself (plus any
tail) succeeds. -/
theorem caselessPref_self_append : ∀ p r : List Char, caselessPref p (p ++ r) = true := by
  intro p
  induction p with
  | nil => intro r; rfl
  | cons a ps ih => intro r; simp [caselessPref, caseEq_refl, ih r]

/-- Helper: no character other than `[` matches `[` case-insensitively
(the case mapping never produces `[`). -/
theorem caseEq_lb (c : Char) (hc : c ≠ '[') : caseEq ('[') c = false := by
  apply Bool.eq_false_iff.mpr
  intro h
  have h' : lowerCode (('[').toNat) = lowerCode c.toNat := by
    simpa [caseEq] using h
  have h91 : (91 : Nat) = lowerCode c.toNat := h'
  unfold lowerCode at h91
  split_ifs at h91 with h1 h2 h3
  · omega
  · omega
  · omega
  · exact hc (char_toNat_inj (by rw [show ('[').toNat = 91 from rfl]; omega))

/-- Helper: a marker match can only start at a `[`. -/
theorem matchMarkerAt_cons_ne (c : Char) (t : List Char) (hc : c ≠ '[') :
    matchMarkerAt (c :: t) = none := by
  have h1 : caselessPref markerHeader (c :: t) = false := by
    show caselessPref ('[' :: ("ИЛЛЮСТРАЦИЯ:").data) (c :: t) = false
    simp [caselessPref, caseEq_lb c hc]
  simp [matchMarkerAt, h1]

/-- Helper: splitting at the first `]` of `d ++ ']' :: rest` with `]`-free
`d` yields exactly `(d, rest)`. -/
theorem splitAtRB_no_rb : ∀ d rest : List Char, ']' ∉ d →
    splitAtRB (d ++ ']' :: rest) = some (d, rest) := by
  intro d
  induction d with
  | nil => intro rest _; simp [splitAtRB]
  | cons c d' ih =>
    intro rest hd
    have hc : ¬c = ']' := by
      intro hcc
      exact hd (by rw [hcc]; exact List.mem_cons_self _ _)
    show splitAtRB (c :: (d' ++ ']' :: rest)) = some (c :: d', rest)
    simp only [splitAtRB, if_neg hc, ih rest (fun hm => hd (List.mem_cons_of_mem c hm))]

/-- Helper: the components of a `splitAtRB` result account for the whole
list. -/
theorem splitAtRB_len : ∀ l g r : List Char, splitAtRB l = some (g, r) →
    g.length + 1 + r.length = l.length := by
  intro l
  induction l with
  | nil => intro g r h; cases h
  | cons c cs ih =>
    intro g r h
    simp only [splitAtRB] at h
    by_cases hc : c = ']'
    · rw [if_pos hc] at h
      cases h
      simp only [List.length_nil, List.length_cons]
      omega
    · rw [if_neg hc] at h
      cases hs : splitAtRB cs with
      | none => rw [hs] at h; cases h
      | some gr =>
        rw [hs] at h
        cases h
        have := ih gr.1 gr.2 (by rw [hs])
        simp only [List.length_cons]
        omega

/-- Helper: a successful case-insensitive prefix is no longer than the
text. -/
theorem caselessPref_len : ∀ p l : List Char, caselessPref p l = true →
    p.length ≤ l.length := by
  intro p
  induction p with
  | nil => intro l _; simp
  | cons a ps ih =>
    intro l h
    cases l with
    | nil => cases h
    | cons c cs =>
      simp only [caselessPref, Bool.and_eq_true] at h
      have := ih cs h.2
      simp only [List.length_cons]
      omega

/-- Helper: the pattern matches at a well-formed marker occurrence,
capturing its description. -/
theorem matchMarkerAt_some (d rest : List Char) (hd : ']' ∉ d) (hd' : d ≠ []) :
    matchMarkerAt (markerHeader ++ (d ++ ']' :: rest)) = some (d, rest) := by
  have hemp : d.isEmpty = false := by
    cases d with
    | nil => exact absurd rfl hd'
    | cons x xs => rfl
  unfold matchMarkerAt
  rw [if_pos (caselessPref_self_append markerHeader (d ++ ']' :: rest)),
    List.drop_left markerHeader (d ++ ']' :: rest), splitAtRB_no_rb d rest hd]
  simp [hemp]

/-- Helper: a marker match strictly shrinks the text (it consumes the
13-character header, a non-empty group, and the closing bracket). -/
theorem matchMarkerAt_rest_len (l g rest : List Char)
    (h : matchMarkerAt l = some (g, rest)) : rest.length < l.length := by
  unfold matchMarkerAt at h
  by_cases hp : caselessPref markerHeader l = true
  · rw [if_pos hp] at h
    have hlen := caselessPref_len markerHeader l hp
    have hhdr : markerHeader.length = 13 := rfl
    cases hs : splitAtRB (l.drop markerHeader.length) with
    | none => rw [hs] at h; cases h
    | some gr =>
      obtain ⟨g1, r1⟩ := gr
      rw [hs] at h
      have hsplit := splitAtRB_len (l.drop markerHeader.length) g1 r1 (by rw [hs])
      rw [List.length_drop] at hsplit
      have h2 : (if g1.isEmpty = true then (none : Option (List Char × List Char))
          else some (g1, r1)) = some (g, rest) := h
      by_cases hemp : g1.isEmpty = true
      · rw [if_pos hemp] at h2; cases h2
      · rw [if_neg hemp] at h2
        cases h2
        omega
  · rw [if_neg hp] at h
    cases h

/-- Helper: `subMarkersAux` on the empty list is empty at any fuel. -/
theorem subMarkersAux_nil : ∀ fuel, subMarkersAux fuel [] = [] := by
  intro fuel; cases fuel <;> rfl

/-- Helper: the fuel of `subMarkersAux` is irrelevant once it covers the
list length (each step consumes at least one character). -/
theorem subMarkersAux_fuel_irrel :
    ∀ f1 f2 l, l.length ≤ f1 → l.length ≤ f2 →
      subMarkersAux f1 l = subMarkersAux f2 l := by
  intro f1
  induction f1 with
  | zero =>
    intro f2 l h1 _
    have : l = [] := List.eq_nil_of_length_eq_zero (by omega)
    subst this
    rw [subMarkersAux_nil, subMarkersAux_nil]
  | succ f1 ih =>
    intro f2 l h1 h2
    cases l with
    | nil => rw [subMarkersAux_nil, subMarkersAux_nil]
    | cons c cs =>
      cases f2 with
      | zero => simp at h2
      | succ g2 =>
        show (match matchMarkerAt (c :: cs) with
          | some gr => subMarkersAux f1 gr.2
          | none => c :: subMarkersAux f1 cs)
          = (match matchMarkerAt (c :: cs) with
          | some gr => subMarkersAux g2 gr.2
          | none => c :: subMarkersAux g2 cs)
        cases hm : matchMarkerAt (c :: cs) with
        | some gr =>
          have hlt := matchMarkerAt_rest_len (c :: cs) gr.1 gr.2 (by rw [hm])
          simp only [List.length_cons] at hlt h1 h2
          exact ih g2 gr.2 (by omega) (by omega)
        | none =>
          simp only [List.length_cons] at h1 h2
          rw [ih g2 cs (by omega) (by omega)]

/-- Helper: a segment without `[` is copied verbatim by the replacement
scan. -/
theorem subMarkersAux_copy :
    ∀ (seg : List Char) (fuel : Nat) (t : List Char), (∀ c ∈ seg, c ≠ '[') →
      subMarkersAux (seg.length + fuel) (seg ++ t) = seg ++ subMarkersAux fuel t
  | [], fuel, t, _ => by simp
  | c :: seg', fuel, t, h => by
    have hc : c ≠ '[' := h c (List.mem_cons_self c seg')
    have heq : (c :: seg').length + fuel = seg'.length + fuel + 1 := by
      simp only [List.length_cons]; omega
    rw [heq]
    show (match matchMarkerAt (c :: (seg' ++ t)) with
      | some gr => subMarkersAux (seg'.length + fuel) gr.2
      | none => c :: subMarkersAux (seg'.length + fuel) (seg' ++ t))
      = c :: (seg' ++ subMarkersAux fuel t)
    rw [matchMarkerAt_cons_ne c (seg' ++ t) hc]
    rw [subMarkersAux_copy seg' fuel t (fun x hx => h x (List.mem_cons_of_mem c hx))]

/-- Helper: the marker search skips a `[`-free segment. -/
theorem findMarkerGroup_skip :
    ∀ seg t : List Char, (∀ c ∈ seg, c ≠ '[') →
      findMarkerGroup (seg ++ t) = findMarkerGroup t
  | [], t, _ => rfl
  | c :: seg', t, h => by
    have hc : c ≠ '[' := h c (List.mem_cons_self c seg')
    show (match matchMarkerAt (c :: (seg' ++ t)) with
      | some gr => some gr.1
      | none => findMarkerGroup (seg' ++ t)) = findMarkerGroup t
    rw [matchMarkerAt_cons_ne c (seg' ++ t) hc]
    exact findMarkerGroup_skip seg' t (fun x hx => h x (List.mem_cons_of_mem c hx))

/-- Helper: a `[`-free text contains no marker. -/
theorem findMarkerGroup_none_of_no_lb (l : List Char) (h : ∀ c ∈ l, c ≠ '[') :
    findMarkerGroup l = none := by
  have := findMarkerGroup_skip l [] h
  rw [List.append_nil] at this
  exact this

/-- Helper: when the search finds no marker, the replacement is the
identity. -/
theorem subMarkersAux_id_of_none :
    ∀ fuel l, l.length ≤ fuel → findMarkerGroup l = none →
      subMarkersAux fuel l = l := by
  intro fuel
  induction fuel with
  | zero =>
    intro l h1 _
    have : l = [] := List.eq_nil_of_length_eq_zero (by omega)
    subst this; rfl
  | succ fuel ih =>
    intro l h1 hf
    cases l with
    | nil => rfl
    | cons c cs =>
      show (match matchMarkerAt (c :: cs) with
        | some gr => subMarkersAux fuel gr.2
        | none => c :: subMarkersAux fuel cs) = c :: cs
      cases hm : matchMarkerAt (c :: cs) with
      | some gr =>
        exfalso
        have : findMarkerGroup (c :: cs) = some gr.1 := by
          show (match matchMarkerAt (c :: cs) with
            | some gr => some gr.1
            | none => findMarkerGroup cs) = some gr.1
          rw [hm]
        rw [hf] at this
        cases this
      | none =>
        have hstep : findMarkerGroup (c :: cs) = findMarkerGroup cs := by
          show (match matchMarkerAt (c :: cs) with
            | some gr => some gr.1
            | none => findMarkerGroup cs) = findMarkerGroup cs
          rw [hm]
        have hf' : findMarkerGroup cs = none := by rw [← hstep]; exact hf
        simp only [List.length_cons] at h1
        rw [ih cs (by omega) hf']

/-- Helper: the replacement scan eliminates a well-formed marker in one
step. -/
theorem subMarkersAux_marker_step (d rest : List Char) (fuel : Nat)
    (hd : ']' ∉ d) (hd' : d ≠ []) :
    subMarkersAux (fuel + 1) (markerHeader ++ (d ++ ']' :: rest))
      = subMarkersAux fuel rest := by
  show (match matchMarkerAt ('[' :: (("ИЛЛЮСТРАЦИЯ:").data ++ (d ++ ']' :: rest))) with
    | some gr => subMarkersAux fuel gr.2
    | none => '[' :: subMarkersAux fuel (("ИЛЛЮСТРАЦИЯ:").data ++ (d ++ ']' :: rest)))
    = subMarkersAux fuel rest
  rw [show ('[' :: (("ИЛЛЮСТРАЦИЯ:").data ++ (d ++ ']' :: rest)))
      = markerHeader ++ (d ++ ']' :: rest) from rfl,
    matchMarkerAt_some d rest hd hd']

/-- Helper: the marker search captures the description of a marker at the
head of the text. -/
theorem findMarkerGroup_marker (d rest : List Char) (hd : ']' ∉ d) (hd' : d ≠ []) :
    findMarkerGroup (markerHeader ++ (d ++ ']' :: rest)) = some d := by
  show (match matchMarkerAt ('[' :: (("ИЛЛЮСТРАЦИЯ:").data ++ (d ++ ']' :: rest))) with
    | some gr => some gr.1
    | none => findMarkerGroup (("ИЛЛЮСТРАЦИЯ:").data ++ (d ++ ']' :: rest)))
    = some d
  rw [show ('[' :: (("ИЛЛЮСТРАЦИЯ:").data ++ (d ++ ']' :: rest)))
      = markerHeader ++ (d ++ ']' :: rest) from rfl,
    matchMarkerAt_some d rest hd hd']

/-- Helper: `stripChars` is right-then-left `dropWhile` in Mathlib terms. -/
theorem stripChars_eq_rdrop (l : List Char) :
    stripChars l = List.rdropWhile isPySpace (l.dropWhile isPySpace) := rfl

/-- Helper: `str.strip()` is idempotent. -/
theorem stripChars_idem (l : List Char) : stripChars (stripChars l) = stripChars l := by
  rw [stripChars_eq_rdrop, stripChars_eq_rdrop]
  have hAself : (l.dropWhile isPySpace).dropWhile isPySpace = l.dropWhile isPySpace :=
    List.dropWhile_idempotent isPySpace l
  have hB : (List.rdropWhile isPySpace (l.dropWhile isPySpace)).dropWhile isPySpace
      = List.rdropWhile isPySpace (l.dropWhile isPySpace) := by
    rcases hpre : List.rdropWhile isPySpace (l.dropWhile isPySpace) with _ | ⟨b, bs⟩
    · rfl
    · have hp := List.rdropWhile_prefix isPySpace (l.dropWhile isPySpace)
      rw [hpre] at hp
      rcases hp with ⟨tail, htail⟩
      have hAcons : l.dropWhile isPySpace = b :: (bs ++ tail) := by
        rw [← htail]; rfl
      have hb : isPySpace b = false := by
        by_contra hb'
        rw [Bool.not_eq_false] at hb'
        have h1 : (l.dropWhile isPySpace).dropWhile isPySpace
            = (bs ++ tail).dropWhile isPySpace := by
          rw [hAcons, List.dropWhile_cons, if_pos hb']
        have h2 := congrArg List.length (hAself.symm.trans h1)
        have h3 : ((bs ++ tail).dropWhile isPySpace).length ≤ (bs ++ tail).length :=
          (List.dropWhile_suffix isPySpace).sublist.length_le
        rw [hAcons] at h2
        simp only [List.length_cons] at h2
        omega
      rw [List.dropWhile_cons, if_neg (by rw [hb]; exact Bool.false_ne_true)]
  rw [hB, List.rdropWhile_idempotent]

/-- Helper: a text made of two well-formed markers separated by `[`-free
segments: the search captures the first marker's description and the
replacement removes exactly the two marker spans. -/
theorem markers_two_segments (pre d1 mid d2 post : List Char)
    (hpre : ∀ c ∈ pre, c ≠ '[') (hmid : ∀ c ∈ mid, c ≠ '[')
    (hpost : ∀ c ∈ post, c ≠ '[')
    (hd1 : ']' ∉ d1) (hd1' : d1 ≠ []) (hd2 : ']' ∉ d2) (hd2' : d2 ≠ []) :
    findMarkerGroup
        (pre ++ (markerHeader ++ (d1 ++ ']'
          :: (mid ++ (markerHeader ++ (d2 ++ ']' :: post)))))) = some d1
    ∧ subMarkersAux
        (pre ++ (markerHeader ++ (d1 ++ ']'
          :: (mid ++ (markerHeader ++ (d2 ++ ']' :: post)))))).length
        (pre ++ (markerHeader ++ (d1 ++ ']'
          :: (mid ++ (markerHeader ++ (d2 ++ ']' :: post))))))
      = pre ++ (mid ++ post) := by
  constructor
  · rw [findMarkerGroup_skip pre _ hpre]
    exact findMarkerGroup_marker d1 _ hd1 hd1'
  · rw [List.length_append]
    rw [subMarkersAux_copy pre _ _ hpre]
    have hlen2 : (markerHeader ++ (d1 ++ ']'
        :: (mid ++ (markerHeader ++ (d2 ++ ']' :: post))))).length
        = (d1.length + (mid ++ (markerHeader ++ (d2 ++ ']' :: post))).length + 14) := by
      simp only [List.length_append, List.length_cons]
      rw [show markerHeader.length = 13 from rfl]
      omega
    rw [hlen2]
    rw [show d1.length + (mid ++ (markerHeader ++ (d2 ++ ']' :: post))).length + 14
        = (d1.length + (mid ++ (markerHeader ++ (d2 ++ ']' :: post))).length + 13) + 1
      from by omega]
    rw [subMarkersAux_marker_step d1 _ _ hd1 hd1']
    have hfi : subMarkersAux
        (d1.length + (mid ++ (markerHeader ++ (d2 ++ ']' :: post))).length + 13)
        (mid ++ (markerHeader ++ (d2 ++ ']' :: post)))
        = subMarkersAux (mid.length + (markerHeader ++ (d2 ++ ']' :: post)).length)
          (mid ++ (markerHeader ++ (d2 ++ ']' :: post))) := by
      apply subMarkersAux_fuel_irrel
      · simp only [List.length_append]; omega
      · simp only [List.length_append]; omega
    rw [hfi]
    rw [subMarkersAux_copy mid _ _ hmid]
    have hlen3 : (markerHeader ++ (d2 ++ ']' :: post)).length
        = (d2.length + post.length + 13) + 1 := by
      simp only [List.length_append, List.length_cons]
      rw [show markerHeader.length = 13 from rfl]
      omega
    rw [hlen3]
    rw [subMarkersAux_marker_step d2 _ _ hd2 hd2']
    have hfi2 : subMarkersAux (d2.length + post.length + 13) post
        = subMarkersAux post.length post := by
      apply subMarkersAux_fuel_irrel
      · omega
      · omega
    rw [hfi2]
    rw [subMarkersAux_id_of_none post.length post (Nat.le_refl _)
      (findMarkerGroup_none_of_no_lb post hpost)]

/-- C7: `generate_chapter` post-processing.  (1) When the raw text carries
no `[ИЛЛЮСТРАЦИЯ: ...]` marker, the fixed generic scene description is
substituted and the stored content is just the stripped raw text (the
removal pass is the identity).  (2) When a marker is present, the prompt is
the stripped description of the first (leftmost) marker.  (3) The stored
`word_count` is computed by splitting the cleaned content — after marker
removal — not the raw output.  (4) On a text with two well-formed markers
(between `[`-free segments), extraction picks the first marker's
description and the removal pass deletes both marker spans exactly. -/
theorem c7_chapter_postprocessing (raw : String) (chapter_number : Nat) :
    (findMarkerGroup (pyStrip raw).data = none →
      (process_chapter_content raw chapter_number).illustration_prompt
        = "сцена из детской книги с главными персонажами"
      ∧ (process_chapter_content raw chapter_number).content = pyStrip raw)
    ∧ (∀ g, findMarkerGroup (pyStrip raw).data = some g →
      (process_chapter_content raw chapter_number).illustration_prompt
        = ⟨stripChars g⟩)
    ∧ (process_chapter_content raw chapter_number).word_count
      = (pyWords ((process_chapter_content raw chapter_number).content).data).length
    ∧ (∀ pre d1 mid d2 post : List Char,
        (∀ c ∈ pre, c ≠ '[') → (∀ c ∈ mid, c ≠ '[') → (∀ c ∈ post, c ≠ '[') →
        ']' ∉ d1 → d1 ≠ [] → ']' ∉ d2 → d2 ≠ [] →
        _extract_illustration_prompt
            ⟨pre ++ (markerHeader ++ (d1 ++ ']'
              :: (mid ++ (markerHeader ++ (d2 ++ ']' :: post)))))⟩
          = ⟨stripChars d1⟩
        ∧ removeMarkersStr
            ⟨pre ++ (markerHeader ++ (d1 ++ ']'
              :: (mid ++ (markerHeader ++ (d2 ++ ']' :: post)))))⟩
          = ⟨pre ++ (mid ++ post)⟩) := by
  refine ⟨?_, ?_, rfl, ?_⟩
  · intro h
    constructor
    · show _extract_illustration_prompt (pyStrip raw)
        = "сцена из детской книги с главными персонажами"
      unfold _extract_illustration_prompt
      rw [h]
    · show pyStrip (removeMarkersStr (pyStrip raw)) = pyStrip raw
      have hid : removeMarkersStr (pyStrip raw) = pyStrip raw := by
        unfold removeMarkersStr
        rw [subMarkersAux_id_of_none _ _ (Nat.le_refl _) h]
      rw [hid]
      show (⟨stripChars (stripChars raw.data)⟩ : String) = pyStrip raw
      rw [stripChars_idem]
      rfl
  · intro g hg
    show _extract_illustration_prompt (pyStrip raw) = ⟨stripChars g⟩
    unfold _extract_illustration_prompt
    rw [hg]
  · intro pre d1 mid d2 post hpre hmid hpost hd1 hd1' hd2 hd2'
    have hm := markers_two_segments pre d1 mid d2 post hpre hmid hpost hd1 hd1' hd2 hd2'
    constructor
    · unfold _extract_illustration_prompt
      rw [show (⟨pre ++ (markerHeader ++ (d1 ++ ']'
          :: (mid ++ (markerHeader ++ (d2 ++ ']' :: post)))))⟩ : String).data
          = pre ++ (markerHeader ++ (d1 ++ ']'
            :: (mid ++ (markerHeader ++ (d2 ++ ']' :: post))))) from rfl, hm.1]
    · unfold removeMarkersStr
      rw [show (⟨pre ++ (markerHeader ++ (d1 ++ ']'
          :: (mid ++ (markerHeader ++ (d2 ++ ']' :: post)))))⟩ : String).data
          = pre ++ (markerHeader ++ (d1 ++ ']'
            :: (mid ++ (markerHeader ++ (d2 ++ ']' :: post))))) from rfl, hm.2]

/-- Witness for `c7_chapter_postprocessing`: a chapter text with two
markers — extraction returns the first description, removal deletes both
markers. -/
theorem c7_chapter_postprocessing_witness :
    _extract_illustration_prompt
        ⟨("Сказка. ").data ++ (markerHeader ++ (("кот у дома").data ++ ']'
          :: ((" Шёл дождь. ").data ++ (markerHeader
            ++ (("лес").data ++ ']' :: (" Конец.").data)))))⟩
      = ⟨stripChars ("кот у дома").data⟩
    ∧ removeMarkersStr
        ⟨("Сказка. ").data ++ (markerHeader ++ (("кот у дома").data ++ ']'
          :: ((" Шёл дождь. ").data ++ (markerHeader
            ++ (("лес").data ++ ']' :: (" Конец.").data)))))⟩
      = ⟨("Сказка. ").data ++ ((" Шёл дождь. ").data ++ (" Конец.").data)⟩ :=
  (c7_chapter_postprocessing ("x") 1).2.2.2
    ("Сказка. ").data ("кот у дома").data (" Шёл дождь. ").data ("лес").data
    (" Конец.").data (by decide) (by decide) (by decide) (by decide) (by decide)
    (by decide) (by decide)
